import Mathlib

/-
Shallow embedding of the openglass weather/geocode gateway:
  * mcp_tools.py      — geocode, get_weather, translate_city_to_chinese,
                        module-level key loading from the environment
  * mcp_api_server.py — the Flask routes /api/weather and /api/geocode

Outbound HTTP is modelled by an oracle (`World`) mapping each fully built
request to an outcome: either the transport layer raises (with a Python
exception message) or an HTTP response arrives, whose body decoding may in
turn fail.  Every embedded function also returns the ordered trace of
outbound HTTP calls it issued and the log records it emitted, so that
claims about call ordering, call absence and log severity can be stated.
-/

/-- Severity levels of the logging calls appearing in the source module. -/
inductive LogLevel where
  | info
  | warning
  | error
  deriving DecidableEq, Repr

/-- One log record: severity and message. -/
structure LogEntry where
  level : LogLevel
  msg : String
  deriving DecidableEq, Repr

/-- JSON values, as produced by response.json() in the source. -/
inductive Json where
  | null
  | bool (b : Bool)
  | num (n : Int)
  | str (s : String)
  | arr (elems : List Json)
  | obj (fields : List (String × Json))

/-- Python dict subscript data[k]: KeyError when the key is missing,
TypeError when the value is not a dict.  Both are caught by the enclosing
try in the source. -/
def Json.getField : Json → String → Except String Json
  | Json.obj fields, k =>
      match fields.lookup k with
      | some v => Except.ok v
      | none => Except.error ("KeyError: " ++ k)
  | _, k => Except.error ("TypeError: value is not a dict, key " ++ k)

/-- Python list subscript xs[i]. -/
def Json.getIndex : Json → Nat → Except String Json
  | Json.arr elems, i =>
      match elems.get? i with
      | some v => Except.ok v
      | none => Except.error "IndexError: list index out of range"
  | _, _ => Except.error "TypeError: value is not a list"

/-- Calling .strip() on a decoded JSON value requires it to be a string;
anything else raises AttributeError, caught by the enclosing try. -/
def Json.asString : Json → Except String String
  | Json.str s => Except.ok s
  | _ => Except.error "AttributeError: value has no strip attribute"

/-- Python data.get ("status") as used in the status log line: for a dict
it returns the rendered status field (None when missing, never raising);
for any other decoded body (list, string, number, null) it raises
AttributeError — and since the log line sits inside the try block, that
raise diverts geocode and get_weather into their except branch. -/
def statusGet : Json → Except String String
  | Json.obj fields =>
      Except.ok
        (match fields.lookup "status" with
         | some (Json.str s) => s
         | some _ => "value"
         | none => "None")
  | _ => Except.error "AttributeError: value has no get attribute"

/-- The synthetic failure payload built in the except branches of geocode and
get_weather: a dict with status "0" and info set to str (e). -/
def errObj (msg : String) : Json :=
  Json.obj [("status", Json.str "0"), ("info", Json.str msg)]

/-- Python str.strip(): drop whitespace from both ends of the string. -/
def pyStrip (s : String) : String :=
  String.mk (((s.data.dropWhile Char.isWhitespace).reverse.dropWhile Char.isWhitespace).reverse)

/-- The ASCII single-quote character (codepoint 39). -/
def singleQuote : String := String.mk [Char.ofNat 39]

/-- A string surrounded by single quotes, exactly as the f-strings of the
source print interpolated names. -/
def quoted (s : String) : String := singleQuote ++ s ++ singleQuote

/-- Query parameters of the weather GET request, in source order. -/
structure WeatherParams where
  city : String
  key : String
  output : String
  extensions : String
  deriving DecidableEq, Repr

/-- Query parameters of the geocoding GET request, in source order. -/
structure GeoParams where
  address : String
  city : String
  output : String
  key : String
  deriving DecidableEq, Repr

/-- The full translation POST request built by translate_city_to_chinese. -/
structure TranslateReq where
  url : String
  bearer : String
  model : String
  systemMsg : String
  userMsg : String
  timeoutSeconds : Nat
  deriving DecidableEq, Repr

/-- One outbound HTTP call, as recorded in the trace. -/
inductive OutCall where
  | translatePost (req : TranslateReq)
  | weatherGet (p : WeatherParams)
  | geoGet (p : GeoParams)
  deriving DecidableEq, Repr

/-- One invocation of a Tool Layer function by the gateway. -/
inductive ToolCall where
  | weatherTool (city : String)
  | geoTool (address : String) (city : String)
  deriving DecidableEq, Repr

/-- An HTTP response: status code plus the outcome of decoding its body as
JSON (response.json() may itself raise). -/
structure HttpResponse where
  statusCode : Nat
  jsonBody : Except String Json

/-- Outcome of an outbound requests call: the transport raises, or a
response arrives. -/
inductive HttpOutcome where
  | raise (msg : String)
  | ok (r : HttpResponse)

/-- requests.Response.raise_for_status: raises HTTPError exactly for 4xx and
5xx status codes. -/
def raise_for_status (r : HttpResponse) : Except String Unit :=
  if 400 ≤ r.statusCode ∧ r.statusCode < 600 then
    Except.error ("HTTPError: status " ++ toString r.statusCode)
  else
    Except.ok ()

/-- A requests.get call immediately followed by response.json(), as in
geocode and get_weather: transport raise or body-decode result. -/
def fetchJson : HttpOutcome → Except String Json
  | HttpOutcome.raise msg => Except.error msg
  | HttpOutcome.ok r => r.jsonBody

/-- The whole try block of geocode and get_weather after building the
request: the GET, response.json(), then the status log line evaluating
data.get ("status") — which raises on a non-dict body.  On success it
hands back the decoded body together with the rendered status for the
log; any raise along the way is the value of the except branch. -/
def relayAttempt (o : HttpOutcome) : Except String (Json × String) :=
  match fetchJson o with
  | Except.error m => Except.error m
  | Except.ok data =>
      match statusGet data with
      | Except.error m => Except.error m
      | Except.ok s => Except.ok (data, s)

/-- The upstream oracle: what each fully built outbound request returns. -/
structure World where
  translateHttp : TranslateReq → HttpOutcome
  weatherHttp : WeatherParams → HttpOutcome
  geoHttp : GeoParams → HttpOutcome

/-- Result of an embedded function: its return value, the ordered trace of
outbound HTTP calls it issued, and the log records it emitted. -/
structure Effect (α : Type) where
  result : α
  calls : List OutCall
  logs : List LogEntry

/-- The fixed system instruction of the translation chat request. -/
def groqSystemPrompt : String :=
  "You are a translation assistant. Translate the given city name to Chinese. Return only the Chinese name itself, without any explanation or additional text. For example, if the input is " ++
    quoted "Beijing" ++ ", the output should be " ++ quoted "北京" ++ "."

/-- The translation POST request built for a given key and city name. -/
def mkTranslateReq (groqKey : String) (cityName : String) : TranslateReq :=
  { url := "https://api.groq.com/openai/v1/chat/completions"
  , bearer := "Bearer " ++ groqKey
  , model := "llama3-70b-8192"
  , systemMsg := groqSystemPrompt
  , userMsg := cityName
  , timeoutSeconds := 10 }

/-- response.json() followed by
data ["choices"] [0] ["message"] ["content"] .strip(): the
malformed-response-body failure mode of the translation try block. -/
def decodedContent (resp : HttpResponse) : Except String String := do
  let data ← resp.jsonBody
  let choices ← data.getField "choices"
  let c0 ← choices.getIndex 0
  let message ← c0.getField "message"
  let content ← message.getField "content"
  let s ← content.asString
  Except.ok (pyStrip s)

/-- Body of the try block in translate_city_to_chinese after the POST:
raise_for_status, then the body decode-and-extract chain.  Any raise along
the way surfaces as an error, caught by the enclosing except. -/
def translateAttempt (o : HttpOutcome) : Except String String :=
  match o with
  | HttpOutcome.raise msg => Except.error msg
  | HttpOutcome.ok resp =>
      match raise_for_status resp with
      | Except.error m => Except.error m
      | Except.ok _ => decodedContent resp

/-- translate_city_to_chinese from mcp_tools.py: with no configured key it
logs an error and returns the name unchanged without any HTTP call;
otherwise it issues one POST and on any failure returns the name unchanged
after logging an error. -/
def translate_city_to_chinese (w : World) (groqKey : String) (cityName : String) :
    Effect String :=
  if groqKey = "" then
    { result := cityName
    , calls := []
    , logs := [⟨LogLevel.error, "Groq API key is not configured. Cannot translate city name."⟩] }
  else
    let req := mkTranslateReq groqKey cityName
    let startLog : LogEntry :=
      ⟨LogLevel.info, "Translating city name " ++ quoted cityName ++ " to Chinese..."⟩
    match translateAttempt (w.translateHttp req) with
    | Except.error m =>
        { result := cityName
        , calls := [OutCall.translatePost req]
        , logs := [startLog,
            ⟨LogLevel.error, "Error translating city name " ++ quoted cityName ++ ": " ++ m⟩] }
    | Except.ok t =>
        { result := t
        , calls := [OutCall.translatePost req]
        , logs := [startLog,
            ⟨LogLevel.info, "Successfully translated " ++ quoted cityName ++ " to " ++ quoted t⟩] }

/-- re.search over the character class of Latin letters: does the string
contain at least one ASCII letter. -/
def containsLatin (s : String) : Bool :=
  s.data.any (fun c => ('a' ≤ c && c ≤ 'z') || ('A' ≤ c && c ≤ 'Z'))

/-- The translation stage of get_weather applied to the stripped city: the
helper runs only when the stripped name contains a Latin letter. -/
def weatherTransEffect (w : World) (groqKey city : String) : Effect String :=
  if containsLatin (pyStrip city) then
    translate_city_to_chinese w groqKey (pyStrip city)
  else
    { result := pyStrip city, calls := [], logs := [] }

/-- The exact query parameters of the weather GET issued by get_weather. -/
def weatherRequestParams (w : World) (mapKey groqKey city : String) : WeatherParams :=
  { city := (weatherTransEffect w groqKey city).result
  , key := mapKey
  , output := "json"
  , extensions := "base" }

/-- get_weather from mcp_tools.py: trim, optionally translate, one GET to
the weather endpoint; a raise anywhere in the try block — including the
status log line on a non-dict body — yields the synthetic payload. -/
def get_weather (w : World) (mapKey groqKey : String) (city : String) : Effect Json :=
  let trans := weatherTransEffect w groqKey city
  let params := weatherRequestParams w mapKey groqKey city
  let outcome := relayAttempt (w.weatherHttp params)
  { result :=
      match outcome with
      | Except.ok x => x.1
      | Except.error m => errObj m
  , calls := trans.calls ++ [OutCall.weatherGet params]
  , logs := trans.logs ++
      [⟨LogLevel.info, "Getting weather for: " ++ trans.result ++ " (Original: " ++ city ++ ")"⟩] ++
      (match outcome with
       | Except.ok x => [⟨LogLevel.info, "Weather API status: " ++ x.2⟩]
       | Except.error m => [⟨LogLevel.error, "Error calling weather API: " ++ m⟩]) }

/-- geocode from mcp_tools.py: one GET to the geocoding endpoint with the
argument strings forwarded verbatim; a raise anywhere in the try block —
including the status log line on a non-dict body — yields the synthetic
payload. -/
def geocode (w : World) (mapKey : String) (address : String) (city : String) : Effect Json :=
  let params : GeoParams := { address := address, city := city, output := "json", key := mapKey }
  let outcome := relayAttempt (w.geoHttp params)
  { result :=
      match outcome with
      | Except.ok x => x.1
      | Except.error m => errObj m
  , calls := [OutCall.geoGet params]
  , logs := [⟨LogLevel.info, "Geocoding: " ++ address ++ ", city: " ++ city⟩] ++
      (match outcome with
       | Except.ok x => [⟨LogLevel.info, "Geocode API status: " ++ x.2⟩]
       | Except.error m => [⟨LogLevel.error, "Error calling geocode API: " ++ m⟩]) }

/-- Response of a gateway route: HTTP status, JSON body, the Tool Layer
functions it invoked, and the outbound HTTP calls made on its behalf. -/
structure GatewayResult where
  statusCode : Nat
  body : Json
  toolCalls : List ToolCall
  httpCalls : List OutCall

/-- The /api/weather route of mcp_api_server.py.  args models
request.args.get; a missing parameter defaults to the empty string, and the
Python truthiness test rejects exactly the empty string. -/
def weather (w : World) (mapKey groqKey : String) (args : String → Option String) :
    GatewayResult :=
  let city := (args "city").getD ""
  if city = "" then
    { statusCode := 400
    , body := Json.obj [("success", Json.bool false), ("error", Json.str "City parameter is required")]
    , toolCalls := []
    , httpCalls := [] }
  else
    let e := get_weather w mapKey groqKey city
    { statusCode := 200
    , body := e.result
    , toolCalls := [ToolCall.weatherTool city]
    , httpCalls := e.calls }

/-- The /api/geocode route of mcp_api_server.py: only address is required. -/
def geo (w : World) (mapKey : String) (args : String → Option String) : GatewayResult :=
  let address := (args "address").getD ""
  let city := (args "city").getD ""
  if address = "" then
    { statusCode := 400
    , body := Json.obj [("success", Json.bool false), ("error", Json.str "Address parameter is required")]
    , toolCalls := []
    , httpCalls := [] }
  else
    let e := geocode w mapKey address city
    { statusCode := 200
    , body := e.result
    , toolCalls := [ToolCall.geoTool address city]
    , httpCalls := e.calls }

/-- os.environ.get (name, "") over an abstract process environment. -/
def getenvOrEmpty (env : String → Option String) (name : String) : String :=
  (env name).getD ""

/-- The module-level MAP_API_KEY load of mcp_tools.py. -/
def mapApiKeyOf (env : String → Option String) : String :=
  getenvOrEmpty env "MAP_API_KEY"

/-- The module-level EXPO_PUBLIC_GROQ_API_KEY load of mcp_tools.py. -/
def groqApiKeyOf (env : String → Option String) : String :=
  getenvOrEmpty env "EXPO_PUBLIC_GROQ_API_KEY"

/-- The warnings logged at module load when either key is missing. -/
def startupWarnings (mapKey groqKey : String) : List LogEntry :=
  (if mapKey = "" then [⟨LogLevel.warning, "MAP_API_KEY not found in .env file."⟩] else []) ++
  (if groqKey = "" then [⟨LogLevel.warning, "EXPO_PUBLIC_GROQ_API_KEY not found in .env file."⟩] else [])

/-- One call into the tool module, for the statelessness analysis. -/
inductive Invocation where
  | invWeather (city : String)
  | invGeo (address : String) (city : String)
  | invTranslate (cityName : String)
  deriving DecidableEq, Repr

/-- The result of one invocation. -/
inductive InvResult where
  | jsonResult (e : Effect Json)
  | stringResult (e : Effect String)

/-- Runs one invocation against fixed configuration and oracle. -/
def runOne (w : World) (mapKey groqKey : String) : Invocation → InvResult
  | Invocation.invWeather city => InvResult.jsonResult (get_weather w mapKey groqKey city)
  | Invocation.invGeo a c => InvResult.jsonResult (geocode w mapKey a c)
  | Invocation.invTranslate n => InvResult.stringResult (translate_city_to_chinese w groqKey n)

/-- Runs a whole sequence of invocations in order.  The module keeps no
mutable state, so this is just the pointwise run of each invocation. -/
def runSeq (w : World) (mapKey groqKey : String) (invs : List Invocation) : List InvResult :=
  invs.map (runOne w mapKey groqKey)

/-- An oracle whose every outbound call raises a transport error. -/
def raiseWorld : World :=
  { translateHttp := fun _ => HttpOutcome.raise "boom"
  , weatherHttp := fun _ => HttpOutcome.raise "boom"
  , geoHttp := fun _ => HttpOutcome.raise "boom" }

/-- A provider body used by the happy-path oracle. -/
def okBody : Json := Json.obj [("status", Json.str "1")]

/-- A well-formed chat-completion body whose content field is 北京. -/
def transBody : Json :=
  Json.obj [("choices", Json.arr [Json.obj [("message", Json.obj [("content", Json.str "北京")])]])]

/-- An oracle answering every call with a well-formed 200 response. -/
def happyWorld : World :=
  { translateHttp := fun _ => HttpOutcome.ok ⟨200, Except.ok transBody⟩
  , weatherHttp := fun _ => HttpOutcome.ok ⟨200, Except.ok okBody⟩
  , geoHttp := fun _ => HttpOutcome.ok ⟨200, Except.ok okBody⟩ }

/-- An oracle whose mapping endpoints answer 200 with a decoded body that
is a JSON array rather than an object. -/
def arrayBodyWorld : World :=
  { translateHttp := fun _ => HttpOutcome.raise "boom"
  , weatherHttp := fun _ => HttpOutcome.ok ⟨200, Except.ok (Json.arr [])⟩
  , geoHttp := fun _ => HttpOutcome.ok ⟨200, Except.ok (Json.arr [])⟩ }

/-- An oracle whose translation endpoint yields a final 302 status (a
non-2xx that raise_for_status does not raise for) with a well-formed
chat-completion body. -/
def redirectWorld : World :=
  { translateHttp := fun _ => HttpOutcome.ok ⟨302, Except.ok transBody⟩
  , weatherHttp := fun _ => HttpOutcome.raise "boom"
  , geoHttp := fun _ => HttpOutcome.raise "boom" }

/-- An oracle whose translation endpoint answers 500 with a body that
would otherwise parse. -/
def serverErrorWorld : World :=
  { translateHttp := fun _ => HttpOutcome.ok ⟨500, Except.ok transBody⟩
  , weatherHttp := fun _ => HttpOutcome.raise "boom"
  , geoHttp := fun _ => HttpOutcome.raise "boom" }

/-- An HTTP error status makes raise_for_status raise, so the whole
translation attempt fails with that error. -/
theorem translateAttempt_status_error (r : HttpResponse) (m : String)
    (h : raise_for_status r = Except.error m) :
    translateAttempt (HttpOutcome.ok r) = Except.error m := by
  simp [translateAttempt, h]

/-- With a non-error status, the translation attempt fails exactly when
the body decode-and-extract chain does. -/
theorem translateAttempt_body_error (r : HttpResponse) (m : String)
    (h : raise_for_status r = Except.ok ()) (hb : decodedContent r = Except.error m) :
    translateAttempt (HttpOutcome.ok r) = Except.error m := by
  simp [translateAttempt, h, hb]

/-- C9: geocode performs no trimming or normalisation of its inputs: the
address and city strings forwarded to the geocoding endpoint are exactly the
argument strings, surrounding whitespace included. -/
theorem C9_geocode_forwards_verbatim (w : World) (mapKey address city : String) :
    (geocode w mapKey address city).calls =
      [OutCall.geoGet { address := address, city := city, output := "json", key := mapKey }] := rfl

/-- C5 counterexample: a 200 response whose decoded JSON body is the array
[] is not relayed unchanged: the status log line inside the try raises
AttributeError on the non-dict body, so geocode returns the synthetic
status-0 object, refuting the unconditional on-success passthrough. -/
theorem C5_counterexample :
    fetchJson (arrayBodyWorld.geoHttp
        { address := "天安门", city := "", output := "json", key := "KEY" }) =
      Except.ok (Json.arr []) ∧
    (geocode arrayBodyWorld "KEY" "天安门" "").result =
      errObj "AttributeError: value has no get attribute" ∧
    (geocode arrayBodyWorld "KEY" "天安门" "").result ≠ Json.arr [] := by
  refine ⟨rfl, rfl, fun h => ?_⟩
  exact Json.noConfusion h

/-- C5 amended: geocode sends a single GET to the geocoding endpoint with
exactly the parameters address, city, output=json, key; whenever the
decoded response body is a JSON object — as in the 天安门 scenario — it is
returned unchanged.  A non-object decoded body raises at the status log
line inside the try and is replaced by the synthetic status-0 object. -/
theorem C5_amended_object_passthrough (w : World) (mapKey address city : String) :
    (geocode w mapKey address city).calls =
      [OutCall.geoGet { address := address, city := city, output := "json", key := mapKey }] ∧
    (∀ fields : List (String × Json),
      fetchJson (w.geoHttp { address := address, city := city, output := "json", key := mapKey }) =
          Except.ok (Json.obj fields) →
        (geocode w mapKey address city).result = Json.obj fields) := by
  refine ⟨rfl, fun fields h => ?_⟩
  have hres : (geocode w mapKey address city).result =
      match relayAttempt (w.geoHttp { address := address, city := city, output := "json", key := mapKey }) with
      | Except.ok x => x.1
      | Except.error m => errObj m := rfl
  rw [hres]
  simp [relayAttempt, h, statusGet]

/-- C5 witness: the scenario geocode 天安门 with empty city against a
well-formed oracle forwards the exact parameters and relays the object
body unchanged. -/
theorem C5_witness :
    fetchJson (happyWorld.geoHttp { address := "天安门", city := "", output := "json", key := "KEY" }) =
      Except.ok (Json.obj [("status", Json.str "1")]) ∧
    (geocode happyWorld "KEY" "天安门" "").result = okBody := by
  exact ⟨rfl,
    (C5_amended_object_passthrough happyWorld "KEY" "天安门" "").2 [("status", Json.str "1")] rfl⟩

/-- C1 counterexample: a whitespace-only city value passes the gateway
truthiness check, so the route answers 200 and invokes the Tool Layer,
contradicting the claimed 400-and-no-call behaviour for whitespace-only
input. -/
theorem C1_counterexample :
    (weather raiseWorld "" "" (fun k => if k = "city" then some " " else none)).statusCode = 200 ∧
    (weather raiseWorld "" "" (fun k => if k = "city" then some " " else none)).toolCalls =
      [ToolCall.weatherTool " "] := ⟨rfl, rfl⟩

/-- C1 amended: a missing or empty required parameter yields HTTP 400 with
the documented body and the Tool Layer is never invoked; any non-empty
value — including whitespace-only strings — is forwarded to the Tool Layer
and answered with status 200. -/
theorem C1_amended_validation (w : World) (mapKey groqKey : String)
    (argsW argsG : String → Option String) :
    ((argsW "city").getD "" = "" →
      weather w mapKey groqKey argsW =
        { statusCode := 400
        , body := Json.obj [("success", Json.bool false), ("error", Json.str "City parameter is required")]
        , toolCalls := []
        , httpCalls := [] }) ∧
    ((argsW "city").getD "" ≠ "" →
      (weather w mapKey groqKey argsW).statusCode = 200 ∧
      (weather w mapKey groqKey argsW).toolCalls = [ToolCall.weatherTool ((argsW "city").getD "")]) ∧
    ((argsG "address").getD "" = "" →
      geo w mapKey argsG =
        { statusCode := 400
        , body := Json.obj [("success", Json.bool false), ("error", Json.str "Address parameter is required")]
        , toolCalls := []
        , httpCalls := [] }) ∧
    ((argsG "address").getD "" ≠ "" →
      (geo w mapKey argsG).statusCode = 200 ∧
      (geo w mapKey argsG).toolCalls =
        [ToolCall.geoTool ((argsG "address").getD "") ((argsG "city").getD "")]) := by
  refine ⟨fun h => ?_, fun h => ?_, fun h => ?_, fun h => ?_⟩ <;> simp [weather, geo, h]

/-- C1 amended witness: concrete requests exercising all four branches of
the amended validation theorem. -/
theorem C1_amended_witness :
    weather raiseWorld "" "" (fun _ => none) =
      { statusCode := 400
      , body := Json.obj [("success", Json.bool false), ("error", Json.str "City parameter is required")]
      , toolCalls := []
      , httpCalls := [] } ∧
    (weather raiseWorld "" "" (fun _ => some "上海")).statusCode = 200 ∧
    geo raiseWorld "" (fun _ => none) =
      { statusCode := 400
      , body := Json.obj [("success", Json.bool false), ("error", Json.str "Address parameter is required")]
      , toolCalls := []
      , httpCalls := [] } ∧
    (geo raiseWorld "" (fun _ => some "天安门")).statusCode = 200 := by
  refine ⟨(C1_amended_validation raiseWorld "" "" (fun _ => none) (fun _ => none)).1 rfl,
    ((C1_amended_validation raiseWorld "" "" (fun _ => some "上海") (fun _ => none)).2.1 (by decide)).1,
    (C1_amended_validation raiseWorld "" "" (fun _ => none) (fun _ => none)).2.2.1 rfl,
    ((C1_amended_validation raiseWorld "" "" (fun _ => none) (fun _ => some "天安门")).2.2.2 (by decide)).1⟩

/-- C7 counterexample: with the translation credential absent the helper
logs no warning at all — the only record it emits is an error — refuting
the claim that it logs a warning and not an error. -/
theorem C7_counterexample :
    (translate_city_to_chinese raiseWorld "" "Beijing").logs.all
      (fun e => !(e.level == LogLevel.warning)) = true ∧
    (translate_city_to_chinese raiseWorld "" "Beijing").logs.any
      (fun e => e.level == LogLevel.error) = true := by
  decide

/-- C7 amended: when the translation credential is absent the helper
returns its input unchanged and logs an error (not a warning), and
get_weather Beijing proceeds to the weather endpoint with the untranslated
string Beijing. -/
theorem C7_amended_no_credential (w : World) (mapKey name : String) :
    (translate_city_to_chinese w "" name).result = name ∧
    (translate_city_to_chinese w "" name).logs =
      [⟨LogLevel.error, "Groq API key is not configured. Cannot translate city name."⟩] ∧
    (get_weather w mapKey "" "Beijing").calls =
      [OutCall.weatherGet { city := "Beijing", key := mapKey, output := "json", extensions := "base" }] := by
  exact ⟨rfl, rfl, rfl⟩

/-- C2: whenever the outbound HTTP call of geocode or get_weather raises,
or decoding its response body raises, the function returns the synthetic
object with status "0" and info equal to the exception message — hence a
non-empty info field whenever the message is non-empty.  Both embedded
functions are total, so no exception crosses their boundary. -/
theorem C2_failure_normalisation (w : World) (mapKey groqKey : String)
    (address cityG cityW msg : String) (hmsg : msg ≠ "") :
    (fetchJson (w.geoHttp { address := address, city := cityG, output := "json", key := mapKey }) =
        Except.error msg →
      (geocode w mapKey address cityG).result = errObj msg ∧
      (geocode w mapKey address cityG).result.getField "status" = Except.ok (Json.str "0") ∧
      ∃ s, (geocode w mapKey address cityG).result.getField "info" = Except.ok (Json.str s) ∧
        s ≠ "") ∧
    (fetchJson (w.weatherHttp (weatherRequestParams w mapKey groqKey cityW)) = Except.error msg →
      (get_weather w mapKey groqKey cityW).result = errObj msg ∧
      (get_weather w mapKey groqKey cityW).result.getField "status" = Except.ok (Json.str "0") ∧
      ∃ s, (get_weather w mapKey groqKey cityW).result.getField "info" = Except.ok (Json.str s) ∧
        s ≠ "") := by
  constructor
  · intro h
    have hrel : relayAttempt (w.geoHttp { address := address, city := cityG, output := "json", key := mapKey }) =
        Except.error msg := by
      simp [relayAttempt, h]
    have hres : (geocode w mapKey address cityG).result =
        match relayAttempt (w.geoHttp { address := address, city := cityG, output := "json", key := mapKey }) with
        | Except.ok x => x.1
        | Except.error m => errObj m := rfl
    rw [hres, hrel]
    exact ⟨rfl, rfl, msg, rfl, hmsg⟩
  · intro h
    have hrel : relayAttempt (w.weatherHttp (weatherRequestParams w mapKey groqKey cityW)) =
        Except.error msg := by
      simp [relayAttempt, h]
    have hres : (get_weather w mapKey groqKey cityW).result =
        match relayAttempt (w.weatherHttp (weatherRequestParams w mapKey groqKey cityW)) with
        | Except.ok x => x.1
        | Except.error m => errObj m := rfl
    rw [hres, hrel]
    exact ⟨rfl, rfl, msg, rfl, hmsg⟩

/-- C2 witness: against an oracle whose every call raises boom, both tools
return the synthetic status-0 object with info boom. -/
theorem C2_witness :
    ("boom" : String) ≠ "" ∧
    fetchJson (raiseWorld.geoHttp { address := "a", city := "", output := "json", key := "k" }) =
      Except.error "boom" ∧
    (geocode raiseWorld "k" "a" "").result = errObj "boom" ∧
    fetchJson (raiseWorld.weatherHttp (weatherRequestParams raiseWorld "k" "g" "天安门")) =
      Except.error "boom" ∧
    (get_weather raiseWorld "k" "g" "天安门").result = errObj "boom" := by
  refine ⟨by decide, rfl, ?_, rfl, ?_⟩
  · exact ((C2_failure_normalisation raiseWorld "k" "g" "a" "" "天安门" "boom" (by decide)).1 rfl).1
  · exact ((C2_failure_normalisation raiseWorld "k" "g" "a" "" "天安门" "boom" (by decide)).2 rfl).1

/-- C3: when the stripped city contains no Latin letter the Translation
Helper is never invoked — the only outbound call is the weather GET; when
it contains a Latin letter and the credential is configured, the trace is
exactly one translation POST followed by the weather GET. -/
theorem C3_translation_policy (w : World) (mapKey groqKey city : String) :
    (containsLatin (pyStrip city) = false →
      (get_weather w mapKey groqKey city).calls =
        [OutCall.weatherGet
          { city := pyStrip city, key := mapKey, output := "json", extensions := "base" }]) ∧
    (containsLatin (pyStrip city) = true → groqKey ≠ "" →
      (get_weather w mapKey groqKey city).calls =
        [OutCall.translatePost (mkTranslateReq groqKey (pyStrip city)),
         OutCall.weatherGet (weatherRequestParams w mapKey groqKey city)]) := by
  have hc : (get_weather w mapKey groqKey city).calls =
      (weatherTransEffect w groqKey city).calls ++
        [OutCall.weatherGet (weatherRequestParams w mapKey groqKey city)] := rfl
  constructor
  · intro h
    rw [hc]
    simp [weatherTransEffect, weatherRequestParams, h]
  · intro h1 h2
    rw [hc]
    cases htr : translateAttempt (w.translateHttp (mkTranslateReq groqKey (pyStrip city))) with
    | error m => simp [weatherTransEffect, translate_city_to_chinese, h1, h2, htr]
    | ok t => simp [weatherTransEffect, translate_city_to_chinese, h1, h2, htr]

/-- C3 witness: 北京 triggers no translation call; beijing with a configured
credential yields exactly one translation POST before the weather GET. -/
theorem C3_witness :
    (containsLatin (pyStrip "北京") = false ∧
      (get_weather raiseWorld "k" "g" "北京").calls =
        [OutCall.weatherGet
          { city := pyStrip "北京", key := "k", output := "json", extensions := "base" }]) ∧
    (containsLatin (pyStrip "beijing") = true ∧ ("g" : String) ≠ "" ∧
      (get_weather raiseWorld "k" "g" "beijing").calls =
        [OutCall.translatePost (mkTranslateReq "g" (pyStrip "beijing")),
         OutCall.weatherGet (weatherRequestParams raiseWorld "k" "g" "beijing")]) := by
  refine ⟨⟨by decide, (C3_translation_policy raiseWorld "k" "g" "北京").1 (by decide)⟩,
    ⟨by decide, by decide,
      (C3_translation_policy raiseWorld "k" "g" "beijing").2 (by decide) (by decide)⟩⟩

/-- C4: get_weather strips the input, optionally routes it through the
Translation Helper, then issues the weather GET with exactly the
parameters city (possibly translated stripped input), key, output=json,
extensions=base; in the scenario where translation is enabled and the
oracle translates beijing to 北京, the trace is the translation POST for
beijing followed by the weather GET with city 北京. -/
theorem C4_weather_request_shape (w : World) (mapKey groqKey : String) :
    (∀ city, (get_weather w mapKey groqKey city).calls =
        (weatherTransEffect w groqKey city).calls ++
          [OutCall.weatherGet
            { city := (weatherTransEffect w groqKey city).result
            , key := mapKey, output := "json", extensions := "base" }]) ∧
    (∀ city, containsLatin (pyStrip city) = false →
        (weatherTransEffect w groqKey city).result = pyStrip city) ∧
    (∀ city, containsLatin (pyStrip city) = true →
        weatherTransEffect w groqKey city =
          translate_city_to_chinese w groqKey (pyStrip city)) ∧
    (groqKey ≠ "" →
      translateAttempt (w.translateHttp (mkTranslateReq groqKey "beijing")) = Except.ok "北京" →
      (get_weather w mapKey groqKey "beijing").calls =
        [OutCall.translatePost (mkTranslateReq groqKey "beijing"),
         OutCall.weatherGet { city := "北京", key := mapKey, output := "json", extensions := "base" }]) := by
  refine ⟨fun city => rfl, fun city h => ?_, fun city h => ?_, fun h1 h2 => ?_⟩
  · simp [weatherTransEffect, h]
  · simp [weatherTransEffect, h]
  · have hs : pyStrip "beijing" = "beijing" := by decide
    have hc : (get_weather w mapKey groqKey "beijing").calls =
        (weatherTransEffect w groqKey "beijing").calls ++
          [OutCall.weatherGet (weatherRequestParams w mapKey groqKey "beijing")] := rfl
    rw [hc]
    simp [weatherTransEffect, weatherRequestParams, translate_city_to_chinese, hs,
      (by decide : containsLatin "beijing" = true), h1, h2]

/-- C4 witness: the beijing-to-北京 scenario realised by a concrete
well-formed oracle. -/
theorem C4_witness :
    ("g" : String) ≠ "" ∧
    translateAttempt (happyWorld.translateHttp (mkTranslateReq "g" "beijing")) =
      Except.ok "北京" ∧
    (get_weather happyWorld "k" "g" "beijing").calls =
      [OutCall.translatePost (mkTranslateReq "g" "beijing"),
       OutCall.weatherGet { city := "北京", key := "k", output := "json", extensions := "base" }] := by
  refine ⟨by decide, rfl, ?_⟩
  exact (C4_weather_request_shape happyWorld "k" "g").2.2.2 (by decide) rfl

/-- C6 counterexample: a final 302 status — non-2xx, but not one
raise_for_status raises for — with a well-formed chat-completion body is
not treated as a failure: the helper returns the translated name 北京, not
the original input beijing, refuting the claimed return-input-unchanged
behaviour for the enumerated non-2xx case. -/
theorem C6_counterexample :
    redirectWorld.translateHttp (mkTranslateReq "g" "beijing") =
      HttpOutcome.ok { statusCode := 302, jsonBody := Except.ok transBody } ∧
    (translate_city_to_chinese redirectWorld "g" "beijing").result = "北京" ∧
    (translate_city_to_chinese redirectWorld "g" "beijing").result ≠ "beijing" := by
  refine ⟨rfl, rfl, by decide⟩

/-- C6 amended: with a configured credential, whenever the translation
call fails in a way the code detects — the POST raises (timeout or
transport error), the response carries an HTTP error status (4xx/5xx, the
statuses raise_for_status raises for), or extracting the translated name
from the response body fails — the helper logs the error and returns the
original input unchanged, and the enclosing weather lookup proceeds with
the untranslated name.  A non-error non-2xx final status with a
well-formed body is not treated as a failure. -/
theorem C6_amended_failure_recovery (w : World) (mapKey groqKey cityName msg : String)
    (hk : groqKey ≠ "")
    (hfail :
      w.translateHttp (mkTranslateReq groqKey cityName) = HttpOutcome.raise msg ∨
      (∃ r, w.translateHttp (mkTranslateReq groqKey cityName) = HttpOutcome.ok r ∧
        raise_for_status r = Except.error msg) ∨
      (∃ r, w.translateHttp (mkTranslateReq groqKey cityName) = HttpOutcome.ok r ∧
        raise_for_status r = Except.ok () ∧ decodedContent r = Except.error msg)) :
    (translate_city_to_chinese w groqKey cityName).result = cityName ∧
    (⟨LogLevel.error, "Error translating city name " ++ quoted cityName ++ ": " ++ msg⟩ : LogEntry) ∈
      (translate_city_to_chinese w groqKey cityName).logs ∧
    (containsLatin cityName = true → pyStrip cityName = cityName →
      (get_weather w mapKey groqKey cityName).calls =
        [OutCall.translatePost (mkTranslateReq groqKey cityName),
         OutCall.weatherGet
           { city := cityName, key := mapKey, output := "json", extensions := "base" }]) := by
  have hta : translateAttempt (w.translateHttp (mkTranslateReq groqKey cityName)) =
      Except.error msg := by
    rcases hfail with h | ⟨r, hr, hs⟩ | ⟨r, hr, hs, hb⟩
    · rw [h]
      rfl
    · rw [hr]
      exact translateAttempt_status_error r msg hs
    · rw [hr]
      exact translateAttempt_body_error r msg hs hb
  refine ⟨?_, ?_, fun hlat hstrip => ?_⟩
  · simp [translate_city_to_chinese, hk, hta]
  · simp [translate_city_to_chinese, hk, hta]
  · have hc : (get_weather w mapKey groqKey cityName).calls =
        (weatherTransEffect w groqKey cityName).calls ++
          [OutCall.weatherGet (weatherRequestParams w mapKey groqKey cityName)] := rfl
    rw [hc]
    simp [weatherTransEffect, weatherRequestParams, translate_city_to_chinese,
      hstrip, hlat, hk, hta]

/-- C6 witness: two concrete detected failures — a raising transport and a
500 status — make the helper hand back beijing, log the error, and the
weather GET still goes out with the untranslated name. -/
theorem C6_witness :
    ("g" : String) ≠ "" ∧
    raiseWorld.translateHttp (mkTranslateReq "g" "beijing") = HttpOutcome.raise "boom" ∧
    (translate_city_to_chinese raiseWorld "g" "beijing").result = "beijing" ∧
    (⟨LogLevel.error, "Error translating city name " ++ quoted "beijing" ++ ": " ++ "boom"⟩ : LogEntry) ∈
      (translate_city_to_chinese raiseWorld "g" "beijing").logs ∧
    containsLatin "beijing" = true ∧ pyStrip "beijing" = "beijing" ∧
    (get_weather raiseWorld "k" "g" "beijing").calls =
      [OutCall.translatePost (mkTranslateReq "g" "beijing"),
       OutCall.weatherGet { city := "beijing", key := "k", output := "json", extensions := "base" }] ∧
    raise_for_status { statusCode := 500, jsonBody := Except.ok transBody } =
      Except.error "HTTPError: status 500" ∧
    (translate_city_to_chinese serverErrorWorld "g" "beijing").result = "beijing" := by
  have h1 := C6_amended_failure_recovery raiseWorld "k" "g" "beijing" "boom"
    (by decide) (Or.inl rfl)
  have h2 := C6_amended_failure_recovery serverErrorWorld "k" "g" "beijing"
    "HTTPError: status 500" (by decide)
    (Or.inr (Or.inl ⟨{ statusCode := 500, jsonBody := Except.ok transBody }, rfl, rfl⟩))
  exact ⟨by decide, rfl, h1.1, h1.2.1, by decide, by decide,
    h1.2.2 (by decide) (by decide), rfl, h2.1⟩

/-- C8: the tool functions keep no mutable state across calls: running a
sequence of invocations is the pointwise run of each one, so the result at
any position depends only on that invocation (and the fixed configuration
and oracle), and equal invocations anywhere in any sequence get equal
results. -/
theorem C8_stateless_invocations (w : World) (mapKey groqKey : String) :
    (∀ pre post : List Invocation,
      runSeq w mapKey groqKey (pre ++ post) =
        runSeq w mapKey groqKey pre ++ runSeq w mapKey groqKey post) ∧
    (∀ (invs : List Invocation) (i : Nat),
      (runSeq w mapKey groqKey invs)[i]? = (invs[i]?).map (runOne w mapKey groqKey)) := by
  constructor
  · intro pre post
    simp [runSeq]
  · intro invs i
    simp [runSeq]

/-- C10: an absent mapping-provider key defaults to the empty string at
load time (with only a startup warning), and both tools still issue their
upstream request with key set to the empty string. -/
theorem C10_missing_map_key_not_fatal (env : String → Option String) (w : World)
    (groqKey address city cityW : String) (h : env "MAP_API_KEY" = none) :
    mapApiKeyOf env = "" ∧
    (⟨LogLevel.warning, "MAP_API_KEY not found in .env file."⟩ : LogEntry) ∈
      startupWarnings (mapApiKeyOf env) groqKey ∧
    (geocode w (mapApiKeyOf env) address city).calls =
      [OutCall.geoGet { address := address, city := city, output := "json", key := "" }] ∧
    (get_weather w (mapApiKeyOf env) groqKey cityW).calls =
      (weatherTransEffect w groqKey cityW).calls ++
        [OutCall.weatherGet
          { city := (weatherTransEffect w groqKey cityW).result
          , key := "", output := "json", extensions := "base" }] := by
  have hk : mapApiKeyOf env = "" := by simp [mapApiKeyOf, getenvOrEmpty, h]
  refine ⟨hk, ?_, ?_, ?_⟩
  · rw [hk]
    simp [startupWarnings]
  · rw [hk]
    rfl
  · rw [hk]
    rfl

/-- C10 witness: a process environment with no MAP_API_KEY at all. -/
theorem C10_witness :
    ((fun _ : String => (none : Option String)) "MAP_API_KEY" = none) ∧
    mapApiKeyOf (fun _ => none) = "" ∧
    (geocode raiseWorld (mapApiKeyOf (fun _ => none)) "天安门" "").calls =
      [OutCall.geoGet { address := "天安门", city := "", output := "json", key := "" }] := by
  refine ⟨rfl, ?_, ?_⟩
  · exact (C10_missing_map_key_not_fatal (fun _ => none) raiseWorld "g" "天安门" "" "x" rfl).1
  · exact (C10_missing_map_key_not_fatal (fun _ => none) raiseWorld "g" "天安门" "" "x" rfl).2.2.1
